import Mathlib

/-!
Verification of the room-coordination core of the truth-or-meme party game
server.  The definitions below are a shallow embedding of the Express route
handlers and of the storage layer they call: the five persisted tables become
lists carried in a `Storage` record, the serial primary keys become explicit
counters, and each route handler becomes a function from the pre-state and the
parsed request body to a response, a post-state, and the list of events it
broadcasts to the room.  The in-memory WebSocket connection registry (two
JavaScript Maps plus per-room Sets) becomes a pair of association lists over
connection identifiers.
-/

/-- A row of the users table (id serial, username unique, display name).
The created-at timestamp plays no role in any claim and is omitted. -/
structure User where
  id : Nat
  username : String
  displayName : String
deriving Repr, DecidableEq

/-- A row of the rooms table: user-chosen string id (primary key), host user
id, status (the code only ever writes "waiting" and "playing"), nullable
current-turn player id, current round, and max rounds. -/
structure Room where
  id : String
  hostId : Nat
  status : String
  currentPlayerId : Option Nat
  currentRound : Nat
  maxRounds : Nat
deriving Repr, DecidableEq

/-- A row of the room-players join table (serial id, room, user, score). -/
structure RoomPlayer where
  id : Nat
  roomId : String
  userId : Nat
  score : Nat
deriving Repr, DecidableEq

/-- A row of the game-submissions table. -/
structure GameSubmission where
  id : Nat
  roomId : String
  playerId : Nat
  round : Nat
  phrase : String
  actualType : String
deriving Repr, DecidableEq

/-- A row of the game-votes table.  The isCorrect column is a plain stored
boolean; where its value comes from is exactly what claim C1 is about. -/
structure GameVote where
  id : Nat
  submissionId : Nat
  voterId : Nat
  guessedType : String
  isCorrect : Bool
deriving Repr, DecidableEq

/-- The persisted database state: one list per table, in insertion order,
plus the next value of each serial primary-key sequence for the tables the
routes insert into. -/
structure Storage where
  users : List User
  rooms : List Room
  roomPlayers : List RoomPlayer
  gameSubmissions : List GameSubmission
  gameVotes : List GameVote
  nextRoomPlayerId : Nat
  nextSubmissionId : Nat
  nextVoteId : Nat
deriving Repr, DecidableEq

/-- A database insert rejects when it would violate a schema constraint
(duplicate primary key or dangling foreign key). -/
inductive DbError where
  | constraint
deriving Repr, DecidableEq

/-- Whether a user row with the given id exists (foreign-key target check). -/
def userExists (st : Storage) (uid : Nat) : Bool :=
  st.users.any (fun u => u.id == uid)

/-- DbStorage.getRoom: select from rooms where id matches, limit 1. -/
def getRoom (st : Storage) (rid : String) : Option Room :=
  st.rooms.find? (fun r => r.id == rid)

/-- Request body accepted by insertRoomSchema: room id and max rounds. -/
structure InsertRoom where
  id : String
  maxRounds : Nat
deriving Repr, DecidableEq

/-- DbStorage.createRoom: insert a rooms row with status "waiting" and
current round 1.  Fails on a duplicate room id (primary key) or an unknown
host (foreign key). -/
def createRoom (st : Storage) (body : InsertRoom) (hostId : Nat) :
    Except DbError (Storage × Room) :=
  if st.rooms.any (fun r => r.id == body.id) || !(userExists st hostId) then
    .error .constraint
  else
    let room : Room := ⟨body.id, hostId, "waiting", none, 1, body.maxRounds⟩
    .ok ({ st with rooms := st.rooms ++ [room] }, room)

/-- Request body accepted by insertRoomPlayerSchema. -/
structure InsertRoomPlayer where
  roomId : String
  userId : Nat
deriving Repr, DecidableEq

/-- DbStorage.joinRoom: insert a room-players row with score 0 and a fresh
serial id.  Fails on a dangling room or user foreign key; note there is no
uniqueness constraint on the (room, user) pair. -/
def joinRoom (st : Storage) (body : InsertRoomPlayer) :
    Except DbError (Storage × RoomPlayer) :=
  if !(st.rooms.any (fun r => r.id == body.roomId)) || !(userExists st body.userId) then
    .error .constraint
  else
    let rp : RoomPlayer := ⟨st.nextRoomPlayerId, body.roomId, body.userId, 0⟩
    .ok ({ st with
            roomPlayers := st.roomPlayers ++ [rp],
            nextRoomPlayerId := st.nextRoomPlayerId + 1 }, rp)

/-- DbStorage.getRoomPlayers: select the room-players rows of the room inner
joined with the users table, in row order (the query has no order-by clause;
rows come back in the insertion order of the append-only table, which is join
order). -/
def getRoomPlayers (st : Storage) (rid : String) : List (RoomPlayer × User) :=
  (st.roomPlayers.filter (fun rp => rp.roomId == rid)).filterMap
    (fun rp => (st.users.find? (fun u => u.id == rp.userId)).map (fun u => (rp, u)))

/-- DbStorage.updateRoom: apply the partial update to every rooms row whose id
matches and return the first updated row (result[0] of the returning clause).
The partial update object of the one call site is passed as a function. -/
def updateRoom (st : Storage) (rid : String) (upd : Room → Room) :
    Storage × Option Room :=
  let rooms := st.rooms.map (fun r => if r.id == rid then upd r else r)
  ({ st with rooms := rooms }, rooms.find? (fun r => r.id == rid))

/-- Request body accepted by insertGameSubmissionSchema. -/
structure InsertGameSubmission where
  roomId : String
  playerId : Nat
  round : Nat
  phrase : String
  actualType : String
deriving Repr, DecidableEq

/-- DbStorage.createSubmission: insert a game-submissions row with a fresh
serial id.  Fails on a dangling room or player foreign key; the schema has no
uniqueness constraint on (room, round). -/
def createSubmission (st : Storage) (body : InsertGameSubmission) :
    Except DbError (Storage × GameSubmission) :=
  if !(st.rooms.any (fun r => r.id == body.roomId)) || !(userExists st body.playerId) then
    .error .constraint
  else
    let sub : GameSubmission :=
      ⟨st.nextSubmissionId, body.roomId, body.playerId, body.round, body.phrase, body.actualType⟩
    .ok ({ st with
            gameSubmissions := st.gameSubmissions ++ [sub],
            nextSubmissionId := st.nextSubmissionId + 1 }, sub)

/-- Request body accepted by insertGameVoteSchema.  The schema picks
submissionId, voterId, guessedType and also isCorrect, so the correctness
flag is part of the client-supplied body. -/
structure InsertGameVote where
  submissionId : Nat
  voterId : Nat
  guessedType : String
  isCorrect : Bool
deriving Repr, DecidableEq

/-- DbStorage.createVote: insert a game-votes row with a fresh serial id,
storing the body fields as given (including the isCorrect flag).  Fails on a
dangling submission or voter foreign key. -/
def createVote (st : Storage) (body : InsertGameVote) :
    Except DbError (Storage × GameVote) :=
  if !(st.gameSubmissions.any (fun s => s.id == body.submissionId))
      || !(userExists st body.voterId) then
    .error .constraint
  else
    let v : GameVote :=
      ⟨st.nextVoteId, body.submissionId, body.voterId, body.guessedType, body.isCorrect⟩
    .ok ({ st with
            gameVotes := st.gameVotes ++ [v],
            nextVoteId := st.nextVoteId + 1 }, v)

/-- DbStorage.hasUserVoted: select from game-votes where both submission and
voter match, limit 1, and test for non-emptiness. -/
def hasUserVoted (st : Storage) (sid vid : Nat) : Bool :=
  st.gameVotes.any (fun v => v.submissionId == sid && v.voterId == vid)

/-- A JSON value, the shape of a serialized broadcast payload. -/
inductive Json where
  | str (s : String)
  | num (n : Nat)
  | obj (fields : List (String × Json))
deriving Repr

/-- Top-level field names of a JSON object. -/
def jsonTopKeys : Json → List String
  | .obj fields => fields.map Prod.fst
  | _ => []

/-- The events the server broadcasts over the real-time channel, one
constructor per object literal passed to broadcastToRoom. -/
inductive WsEvent where
  | userJoined (userId : Nat)
  | playerJoined (player : RoomPlayer)
  | gameStarted (currentPlayerId : Nat)
  | newSubmission (id : Nat) (phrase : String) (round : Nat) (playerId : Nat)
deriving Repr, DecidableEq

/-- JSON shape of a broadcast room-player record. -/
def roomPlayerToJson (p : RoomPlayer) : Json :=
  .obj [("id", .num p.id), ("roomId", .str p.roomId),
        ("userId", .num p.userId), ("score", .num p.score)]

/-- The serialization of each broadcast event, field for field the object
literals in the route code.  The new-submission payload nests a submission
object holding only id, phrase, round and playerId. -/
def eventToJson : WsEvent → Json
  | .userJoined uid =>
      .obj [("type", .str "user_joined"), ("userId", .num uid)]
  | .playerJoined p =>
      .obj [("type", .str "player_joined"), ("player", roomPlayerToJson p)]
  | .gameStarted pid =>
      .obj [("type", .str "game_started"), ("currentPlayerId", .num pid)]
  | .newSubmission i phrase round pid =>
      .obj [("type", .str "new_submission"),
            ("submission", .obj [("id", .num i), ("phrase", .str phrase),
                                 ("round", .num round), ("playerId", .num pid)])]

/-- An HTTP error response: status code and the error field of the body. -/
structure ErrResp where
  status : Nat
  msg : String
deriving Repr, DecidableEq

/-- The observable outcome of one route handler: the response (error body or
success payload), the post-state of the storage, and the (room, event) pairs
it handed to broadcastToRoom, in order. -/
structure RouteOut (α : Type) where
  resp : Except ErrResp α
  st : Storage
  events : List (String × WsEvent)

/-- POST /api/rooms.  The handler validates the body, requires a truthy
hostId, inserts the room, then inserts the auto-join row for the host; the
two inserts are separate awaited calls inside one try/catch with no
transaction.  The flags failCreate and failJoin model the corresponding
awaited storage call rejecting for an environmental reason (the insert then
does not happen and control jumps to the catch); pass false for a run in
which the storage layer only fails on constraint violations. -/
def createRoomRoute (st : Storage) (body : InsertRoom) (hostId : Option Nat)
    (failCreate failJoin : Bool) : RouteOut Room :=
  match hostId with
  | none => ⟨.error ⟨400, "Host ID is required"⟩, st, []⟩
  | some h =>
    if h == 0 then ⟨.error ⟨400, "Host ID is required"⟩, st, []⟩
    else if failCreate then ⟨.error ⟨400, "Invalid room data"⟩, st, []⟩
    else
      match createRoom st body h with
      | .error _ => ⟨.error ⟨400, "Invalid room data"⟩, st, []⟩
      | .ok (st1, room) =>
        if failJoin then ⟨.error ⟨400, "Invalid room data"⟩, st1, []⟩
        else
          match joinRoom st1 ⟨room.id, h⟩ with
          | .error _ => ⟨.error ⟨400, "Invalid room data"⟩, st1, []⟩
          | .ok (st2, _) => ⟨.ok room, st2, []⟩

/-- POST /api/rooms/:id/join.  Requires a truthy userId, an existing room in
status waiting; on success inserts the room-player row and broadcasts the
player-joined event. -/
def joinRoomRoute (st : Storage) (rid : String) (userId : Option Nat) :
    RouteOut RoomPlayer :=
  match userId with
  | none => ⟨.error ⟨400, "User ID is required"⟩, st, []⟩
  | some uid =>
    if uid == 0 then ⟨.error ⟨400, "User ID is required"⟩, st, []⟩
    else
      match getRoom st rid with
      | none => ⟨.error ⟨404, "Room not found"⟩, st, []⟩
      | some room =>
        if room.status != "waiting" then
          ⟨.error ⟨400, "Game already in progress"⟩, st, []⟩
        else
          match joinRoom st ⟨rid, uid⟩ with
          | .error _ => ⟨.error ⟨400, "Failed to join room"⟩, st, []⟩
          | .ok (st1, rp) => ⟨.ok rp, st1, [(rid, .playerJoined rp)]⟩

/-- POST /api/rooms/:id/start.  Requires an existing room, the caller to be
the host, and at least two joined players; the handler never reads the status
field.  On success it updates the room to status playing with the first
player of the player list as current player, broadcasts the game-started
event, and responds with the updated row (result[0] of the returning clause,
hence an Option).  An empty player list past the length guard would make the
indexing expression throw, landing in the catch with a 500. -/
def startGameRoute (st : Storage) (rid : String) (hostId : Nat) :
    RouteOut (Option Room) :=
  match getRoom st rid with
  | none => ⟨.error ⟨404, "Room not found"⟩, st, []⟩
  | some room =>
    if room.hostId != hostId then
      ⟨.error ⟨403, "Only host can start the game"⟩, st, []⟩
    else
      let players := getRoomPlayers st rid
      if players.length < 2 then
        ⟨.error ⟨400, "Need at least 2 players to start"⟩, st, []⟩
      else
        match players.head? with
        | none => ⟨.error ⟨500, "Failed to start game"⟩, st, []⟩
        | some first =>
          let r := updateRoom st rid
            (fun r => { r with status := "playing", currentPlayerId := some first.1.userId })
          ⟨.ok r.2, r.1, [(rid, .gameStarted first.1.userId)]⟩

/-- POST /api/submissions.  Requires an existing room whose current-turn
player is the submitting player; on success inserts the submission row and
broadcasts the new-submission event built from only the id, phrase, round
and playerId of the stored row. -/
def submissionsRoute (st : Storage) (body : InsertGameSubmission) :
    RouteOut GameSubmission :=
  match getRoom st body.roomId with
  | none => ⟨.error ⟨404, "Room not found"⟩, st, []⟩
  | some room =>
    if room.currentPlayerId != some body.playerId then
      ⟨.error ⟨400, "Not your turn"⟩, st, []⟩
    else
      match createSubmission st body with
      | .error _ => ⟨.error ⟨400, "Invalid submission data"⟩, st, []⟩
      | .ok (st1, sub) =>
        ⟨.ok sub, st1, [(body.roomId, .newSubmission sub.id sub.phrase sub.round sub.playerId)]⟩

/-- POST /api/votes.  Checks hasUserVoted first and rejects a duplicate pair;
otherwise inserts the vote row built from the parsed body (the body includes
the isCorrect flag) and returns it.  No broadcast. -/
def votesRoute (st : Storage) (body : InsertGameVote) : RouteOut GameVote :=
  if hasUserVoted st body.submissionId body.voterId then
    ⟨.error ⟨400, "Already voted"⟩, st, []⟩
  else
    match createVote st body with
    | .error _ => ⟨.error ⟨400, "Invalid vote data"⟩, st, []⟩
    | .ok (st1, v) => ⟨.ok v, st1, []⟩

/-- One inbound coordinator trigger, for stating properties of arbitrary
operation sequences. -/
inductive Op where
  | createRoomOp (body : InsertRoom) (hostId : Option Nat) (failCreate failJoin : Bool)
  | joinRoomOp (rid : String) (userId : Option Nat)
  | startGameOp (rid : String) (hostId : Nat)
  | submitPhraseOp (body : InsertGameSubmission)
  | castVoteOp (body : InsertGameVote)

/-- Storage effect of one operation. -/
def step (st : Storage) : Op → Storage
  | .createRoomOp b h fc fj => (createRoomRoute st b h fc fj).st
  | .joinRoomOp r u => (joinRoomRoute st r u).st
  | .startGameOp r h => (startGameRoute st r h).st
  | .submitPhraseOp b => (submissionsRoute st b).st
  | .castVoteOp b => (votesRoute st b).st

/-- Storage after a sequence of operations. -/
def run (st : Storage) (ops : List Op) : Storage :=
  ops.foldl step st

/-- Lookup in an association list with Map semantics (first matching key). -/
def mapGet {α β : Type} [BEq α] (m : List (α × β)) (k : α) : Option β :=
  match m with
  | [] => none
  | p :: rest => if p.1 == k then some p.2 else mapGet rest k

/-- JavaScript Map.set: replace the value at an existing key in place, else
append the new entry at the end. -/
def mapSet {α β : Type} [BEq α] (m : List (α × β)) (k : α) (v : β) : List (α × β) :=
  match m with
  | [] => [(k, v)]
  | p :: rest => if p.1 == k then (k, v) :: rest else p :: mapSet rest k v

/-- JavaScript Set.add on a set represented as a duplicate-free list. -/
def setAdd (s : List Nat) (x : Nat) : List Nat :=
  if s.contains x then s else s ++ [x]

/-- The process-wide connection registry: the room-connections map from room
id to the set of live connections in the room, and the user-connections map
from user id to that user's single registered connection.  Connections are
identified by numbers. -/
structure ConnState where
  roomConnections : List (String × List Nat)
  userConnections : List (Nat × Nat)
deriving Repr, DecidableEq

/-- The broadcast set of a room: its entry in the room-connections map, or
empty when the room has no entry. -/
def roomSet (cs : ConnState) (rid : String) : List Nat :=
  (mapGet cs.roomConnections rid).getD []

/-- broadcastToRoom: look up the connection set of the room; if present,
serialize the message once and send it to every connection in the set whose
transport is currently open, skipping the others.  The transport state at
call time is the isOpen oracle; the result is the list of performed sends. -/
def broadcastToRoom (cs : ConnState) (isOpen : Nat → Bool) (rid : String)
    (msg : WsEvent) : List (Nat × Json) :=
  match mapGet cs.roomConnections rid with
  | none => []
  | some conns =>
    let messageJson := eventToJson msg
    (conns.filter isOpen).map (fun ws => (ws, messageJson))

/-- The join-room message handler: ensure the room has an entry in the
room-connections map, add the connection to the room set, register the
connection as the user connection (replacing any previous entry for that
user), then broadcast the user-joined event to the room through the updated
registry. -/
def handleJoinRoomMsg (cs : ConnState) (ws : Nat) (rid : String) (userId : Nat)
    (isOpen : Nat → Bool) : ConnState × List (Nat × Json) :=
  let conns := (mapGet cs.roomConnections rid).getD []
  let cs1 : ConnState :=
    ⟨mapSet cs.roomConnections rid (setAdd conns ws),
     mapSet cs.userConnections userId ws⟩
  (cs1, broadcastToRoom cs1 isOpen rid (.userJoined userId))

/-- Delete the first map entry whose value is the given connection (the close
handler breaks out of its loop after the first hit). -/
def deleteFirstVal (m : List (Nat × Nat)) (ws : Nat) : List (Nat × Nat) :=
  match m with
  | [] => []
  | p :: rest => if p.2 == ws then rest else p :: deleteFirstVal rest ws

/-- The connection close handler: remove the connection from every room set,
drop rooms whose set became empty, and remove the first user-connections
entry currently pointing at this connection. -/
def handleClose (cs : ConnState) (ws : Nat) : ConnState :=
  ⟨((cs.roomConnections.map (fun p => (p.1, p.2.filter (fun c => c != ws)))).filter
      (fun p => p.2.length != 0)),
   deleteFirstVal cs.userConnections ws⟩

/-- Two registered users, used by the concrete scenarios below. -/
def demoUsers : List User :=
  [⟨1, "alice", "Alice"⟩, ⟨2, "bob", "Bob"⟩]

/-- A storage with two users and nothing else. -/
def usersOnlyStorage : Storage :=
  ⟨demoUsers, [], [], [], [], 1, 1, 1⟩

/-- A waiting two-player room hosted by user 1. -/
def waitingDemoStorage : Storage :=
  ⟨demoUsers, [⟨"ABC123", 1, "waiting", none, 1, 5⟩],
   [⟨1, "ABC123", 1, 0⟩, ⟨2, "ABC123", 2, 0⟩], [], [], 3, 1, 1⟩

/-- A playing room hosted by user 1 whose current-turn player is user 2. -/
def playingDemoStorage : Storage :=
  ⟨demoUsers, [⟨"ABC123", 1, "playing", some 2, 1, 5⟩],
   [⟨1, "ABC123", 1, 0⟩, ⟨2, "ABC123", 2, 0⟩], [], [], 3, 1, 1⟩

/-- A playing room where user 1 holds the turn and no submission exists. -/
def turnDemoStorage : Storage :=
  ⟨demoUsers, [⟨"ABC123", 1, "playing", some 1, 1, 5⟩],
   [⟨1, "ABC123", 1, 0⟩, ⟨2, "ABC123", 2, 0⟩], [], [], 3, 1, 1⟩

/-- A playing room with one stored submission of actual type truth and no
votes yet. -/
def voteDemoStorage : Storage :=
  ⟨demoUsers, [⟨"ABC123", 1, "playing", some 1, 1, 5⟩],
   [⟨1, "ABC123", 1, 0⟩, ⟨2, "ABC123", 2, 0⟩],
   [⟨1, "ABC123", 1, 1, "I once sang karaoke badly", "truth"⟩], [], 3, 2, 1⟩

/-- Like voteDemoStorage but user 2 has already voted on submission 1. -/
def votedDemoStorage : Storage :=
  ⟨demoUsers, [⟨"ABC123", 1, "playing", some 1, 1, 5⟩],
   [⟨1, "ABC123", 1, 0⟩, ⟨2, "ABC123", 2, 0⟩],
   [⟨1, "ABC123", 1, 1, "I once sang karaoke badly", "truth"⟩],
   [⟨1, 1, 2, "meme", true⟩], 3, 2, 2⟩

/-- An empty connection registry and an all-open transport oracle. -/
def csEmpty : ConnState := ⟨[], []⟩

/-- Transport oracle under which every connection is open. -/
def allOpen : Nat → Bool := fun _ => true

theorem mapGet_mapSet_self {α β : Type} [BEq α] [LawfulBEq α]
    (m : List (α × β)) (k : α) (v : β) : mapGet (mapSet m k v) k = some v := by
  induction m with
  | nil => simp [mapSet, mapGet]
  | cons p rest ih =>
    cases h : p.1 == k <;> simp [mapSet, mapGet, h, ih]

theorem mapGet_mapSet_ne {α β : Type} [BEq α] [LawfulBEq α]
    (m : List (α × β)) (k k' : α) (v : β) (hk : (k == k') = false) :
    mapGet (mapSet m k v) k' = mapGet m k' := by
  induction m with
  | nil => simp [mapSet, mapGet, hk]
  | cons p rest ih =>
    cases h : p.1 == k
    · simp [mapSet, mapGet, h, ih]
    · have h1 : p.1 = k := eq_of_beq h
      have h2 : (p.1 == k') = false := by rw [h1]; exact hk
      simp [mapSet, mapGet, h, hk, h2]

theorem mem_setAdd_self (s : List Nat) (x : Nat) : x ∈ setAdd s x := by
  unfold setAdd
  split
  · next h => exact List.mem_of_elem_eq_true h
  · exact List.mem_append_right _ (List.mem_singleton.mpr rfl)

theorem mem_setAdd_of_mem (s : List Nat) (x y : Nat) (h : x ∈ s) : x ∈ setAdd s y := by
  unfold setAdd
  split
  · exact h
  · exact List.mem_append_left _ h

theorem find?_append_some {α : Type} (p : α → Bool) (l1 l2 : List α) (x : α)
    (h : l1.find? p = some x) : (l1 ++ l2).find? p = some x := by
  induction l1 with
  | nil => simp [List.find?] at h
  | cons a t ih =>
    rw [List.cons_append]
    cases hp : p a with
    | true =>
      rw [List.find?_cons_of_pos _ hp] at h
      rw [List.find?_cons_of_pos _ hp]
      exact h
    | false =>
      rw [List.find?_cons_of_neg _ (by simp [hp])] at h
      rw [List.find?_cons_of_neg _ (by simp [hp])]
      exact ih h

theorem find?_map_update (l : List Room) (rid r : String) (upd : Room → Room)
    (hid : ∀ x, (upd x).id = x.id) (room : Room)
    (h : l.find? (fun x => x.id == r) = some room) :
    (l.map (fun x => if x.id == rid then upd x else x)).find? (fun x => x.id == r) =
      some (if room.id == rid then upd room else room) := by
  induction l with
  | nil => simp [List.find?] at h
  | cons a t ih =>
    have hpres : ((if a.id == rid then upd a else a).id == r) = (a.id == r) := by
      split
      · rw [hid]
      · rfl
    rw [List.map_cons]
    cases hp : (a.id == r) with
    | true =>
      simp only [List.find?_cons, hp] at h
      injection h with h
      subst h
      simp only [List.find?_cons, hpres, hp]
    | false =>
      simp only [List.find?_cons, hp] at h
      simp only [List.find?_cons, hpres, hp]
      exact ih h

/-- Claim C1 counterexample: at a concrete playing room holding a stored
submission of actual type truth, a vote whose body carries guessed type meme
together with a caller-chosen isCorrect of true succeeds, and the stored
vote keeps isCorrect true even though the guessed type differs from the
actual type, so the stored flag is not the equality computed by the
coordinator. -/
theorem castVote_isCorrect_counterexample :
    (votesRoute voteDemoStorage ⟨1, 2, "meme", true⟩).resp = .ok ⟨1, 1, 2, "meme", true⟩ ∧
    (votesRoute voteDemoStorage ⟨1, 2, "meme", true⟩).st.gameVotes = [⟨1, 1, 2, "meme", true⟩] ∧
    (voteDemoStorage.gameSubmissions.find? (fun s => s.id == 1)).map (fun s => s.actualType) =
      some "truth" ∧
    (("meme" : String) == "truth") = false :=
  ⟨rfl, rfl, rfl, rfl⟩

/-- Claim C1 (amended): for every successful CastVote the stored vote is
built verbatim from the caller-supplied body: its isCorrect flag is exactly
the isCorrect value of the request body (which the insert schema requires),
and the coordinator performs no comparison with the submission actual type;
the new row is appended to the votes table. -/
theorem castVote_stores_caller_isCorrect (st : Storage) (body : InsertGameVote)
    (v : GameVote) (h : (votesRoute st body).resp = .ok v) :
    v.isCorrect = body.isCorrect ∧ v.guessedType = body.guessedType ∧
    v.submissionId = body.submissionId ∧ v.voterId = body.voterId ∧
    (votesRoute st body).st.gameVotes = st.gameVotes ++ [v] := by
  unfold votesRoute at h ⊢
  split at h
  · exact absurd h (by simp)
  · split at h
    · exact absurd h (by simp)
    · next st1 v0 heq =>
      simp only [Except.ok.injEq] at h
      subst h
      unfold createVote at heq
      split at heq
      · exact absurd heq (by simp)
      · simp only [Except.ok.injEq, Prod.mk.injEq] at heq
        obtain ⟨h1, h2⟩ := heq
        subst h1
        subst h2
        simp [votesRoute, createVote, *]

/-- Witness for the amended C1 theorem at the concrete vote scenario. -/
theorem castVote_stores_caller_isCorrect_witness :
    (⟨1, 1, 2, "meme", true⟩ : GameVote).isCorrect = true ∧
    (⟨1, 1, 2, "meme", true⟩ : GameVote).guessedType = "meme" ∧
    (⟨1, 1, 2, "meme", true⟩ : GameVote).submissionId = 1 ∧
    (⟨1, 1, 2, "meme", true⟩ : GameVote).voterId = 2 ∧
    (votesRoute voteDemoStorage ⟨1, 2, "meme", true⟩).st.gameVotes =
      voteDemoStorage.gameVotes ++ [⟨1, 1, 2, "meme", true⟩] :=
  castVote_stores_caller_isCorrect voteDemoStorage ⟨1, 2, "meme", true⟩
    ⟨1, 1, 2, "meme", true⟩ rfl

/-- Claim C6: CastVote first checks hasUserVoted on the (submission, voter)
pair: if a vote already exists the call fails with the already-voted error
and changes nothing; and the votes table changes only when no prior vote for
the pair existed at the time of the check, in which case exactly the one new
row is appended. -/
theorem castVote_duplicate_guard (st : Storage) (body : InsertGameVote) :
    (hasUserVoted st body.submissionId body.voterId = true →
       (votesRoute st body).resp = .error ⟨400, "Already voted"⟩ ∧
       (votesRoute st body).st = st) ∧
    ((votesRoute st body).st.gameVotes ≠ st.gameVotes →
       hasUserVoted st body.submissionId body.voterId = false ∧
       ∃ v, (votesRoute st body).resp = .ok v ∧
         (votesRoute st body).st.gameVotes = st.gameVotes ++ [v]) := by
  constructor
  · intro h
    unfold votesRoute
    simp [h]
  · intro h
    cases hv : hasUserVoted st body.submissionId body.voterId
    · refine ⟨rfl, ?_⟩
      unfold votesRoute at h ⊢
      simp only [hv, Bool.false_eq_true, if_false] at h ⊢
      cases hc : createVote st body with
      | error e =>
        rw [hc] at h
        exact absurd rfl h
      | ok p =>
        obtain ⟨st1, v⟩ := p
        refine ⟨v, rfl, ?_⟩
        unfold createVote at hc
        split at hc
        · exact absurd hc (by simp)
        · simp only [Except.ok.injEq, Prod.mk.injEq] at hc
          obtain ⟨h1, h2⟩ := hc
          subst h1
          subst h2
          rfl
    · exfalso
      unfold votesRoute at h
      simp [hv] at h

/-- Witness for C6 at a storage where user 2 already voted on submission 1:
the repeated CastVote fails with the already-voted error and leaves the
storage untouched. -/
theorem castVote_duplicate_guard_witness :
    (votesRoute votedDemoStorage ⟨1, 2, "truth", false⟩).resp =
      .error ⟨400, "Already voted"⟩ ∧
    (votesRoute votedDemoStorage ⟨1, 2, "truth", false⟩).st = votedDemoStorage :=
  (castVote_duplicate_guard votedDemoStorage ⟨1, 2, "truth", false⟩).1 rfl

/-- Claim C3 counterexample: in a playing room where user 1 holds the turn,
two SubmitPhrase calls for the same room and the same round both succeed and
leave two stored submissions for the (room, round) pair. -/
theorem duplicate_submission_counterexample :
    (submissionsRoute turnDemoStorage ⟨"ABC123", 1, 1, "phrase one", "truth"⟩).resp =
      .ok ⟨1, "ABC123", 1, 1, "phrase one", "truth"⟩ ∧
    (submissionsRoute
        (submissionsRoute turnDemoStorage ⟨"ABC123", 1, 1, "phrase one", "truth"⟩).st
        ⟨"ABC123", 1, 1, "phrase two", "meme"⟩).resp =
      .ok ⟨2, "ABC123", 1, 1, "phrase two", "meme"⟩ ∧
    ((submissionsRoute
        (submissionsRoute turnDemoStorage ⟨"ABC123", 1, 1, "phrase one", "truth"⟩).st
        ⟨"ABC123", 1, 1, "phrase two", "meme"⟩).st.gameSubmissions.filter
      (fun s => s.roomId == "ABC123" && s.round == 1)).length = 2 :=
  ⟨rfl, rfl, rfl⟩

/-- Claim C3 (amended): SubmitPhrase enforces no uniqueness on (room, round):
every successful call appends exactly one new submission row for the body
room and round, so the number of stored submissions for that pair grows by
one each time and a second call for the same pair yields a second row. -/
theorem submitPhrase_inserts_one_row (st : Storage) (body : InsertGameSubmission)
    (s : GameSubmission) (h : (submissionsRoute st body).resp = .ok s) :
    (submissionsRoute st body).st.gameSubmissions = st.gameSubmissions ++ [s] ∧
    s.roomId = body.roomId ∧ s.round = body.round ∧
    ((submissionsRoute st body).st.gameSubmissions.filter
        (fun x => x.roomId == body.roomId && x.round == body.round)).length =
      (st.gameSubmissions.filter
        (fun x => x.roomId == body.roomId && x.round == body.round)).length + 1 := by
  unfold submissionsRoute at h ⊢
  cases hroom : getRoom st body.roomId with
  | none => simp [hroom] at h
  | some room =>
    simp only [hroom] at h ⊢
    cases hturn : (room.currentPlayerId != some body.playerId) with
    | true => simp [hturn] at h
    | false =>
      simp only [hturn, Bool.false_eq_true, if_false] at h ⊢
      cases hc : createSubmission st body with
      | error e => simp [hc] at h
      | ok p =>
        obtain ⟨st1, sub⟩ := p
        simp only [hc] at h ⊢
        simp only [Except.ok.injEq] at h
        subst h
        unfold createSubmission at hc
        split at hc
        · exact absurd hc (by simp)
        · simp only [Except.ok.injEq, Prod.mk.injEq] at hc
          obtain ⟨h1, h2⟩ := hc
          subst h1
          subst h2
          refine ⟨rfl, rfl, rfl, ?_⟩
          simp [List.filter_append]

/-- Witness for the amended C3 theorem at the first concrete submission. -/
theorem submitPhrase_inserts_one_row_witness :
    (submissionsRoute turnDemoStorage ⟨"ABC123", 1, 1, "phrase one", "truth"⟩).st.gameSubmissions =
      turnDemoStorage.gameSubmissions ++ [⟨1, "ABC123", 1, 1, "phrase one", "truth"⟩] ∧
    (⟨1, "ABC123", 1, 1, "phrase one", "truth"⟩ : GameSubmission).roomId = "ABC123" ∧
    (⟨1, "ABC123", 1, 1, "phrase one", "truth"⟩ : GameSubmission).round = 1 ∧
    ((submissionsRoute turnDemoStorage ⟨"ABC123", 1, 1, "phrase one", "truth"⟩).st.gameSubmissions.filter
        (fun x => x.roomId == "ABC123" && x.round == 1)).length =
      (turnDemoStorage.gameSubmissions.filter
        (fun x => x.roomId == "ABC123" && x.round == 1)).length + 1 :=
  submitPhrase_inserts_one_row turnDemoStorage ⟨"ABC123", 1, 1, "phrase one", "truth"⟩
    ⟨1, "ABC123", 1, 1, "phrase one", "truth"⟩ rfl

theorem createRoom_ok_rooms (st : Storage) (body : InsertRoom) (h0 : Nat)
    (st1 : Storage) (room0 : Room) (h : createRoom st body h0 = .ok (st1, room0)) :
    st1.rooms = st.rooms ++ [room0] := by
  unfold createRoom at h
  split at h
  · exact absurd h (by simp)
  · simp only [Except.ok.injEq, Prod.mk.injEq] at h
    obtain ⟨hA, hB⟩ := h
    subst hA
    subst hB
    rfl

theorem joinRoom_ok_rooms (st : Storage) (body : InsertRoomPlayer)
    (st1 : Storage) (rp : RoomPlayer) (h : joinRoom st body = .ok (st1, rp)) :
    st1.rooms = st.rooms := by
  unfold joinRoom at h
  split at h
  · exact absurd h (by simp)
  · simp only [Except.ok.injEq, Prod.mk.injEq] at h
    obtain ⟨hA, hB⟩ := h
    subst hA
    rfl

theorem createSubmission_ok_rooms (st : Storage) (body : InsertGameSubmission)
    (st1 : Storage) (sub : GameSubmission)
    (h : createSubmission st body = .ok (st1, sub)) : st1.rooms = st.rooms := by
  unfold createSubmission at h
  split at h
  · exact absurd h (by simp)
  · simp only [Except.ok.injEq, Prod.mk.injEq] at h
    obtain ⟨hA, hB⟩ := h
    subst hA
    rfl

theorem createVote_ok_rooms (st : Storage) (body : InsertGameVote)
    (st1 : Storage) (v : GameVote) (h : createVote st body = .ok (st1, v)) :
    st1.rooms = st.rooms := by
  unfold createVote at h
  split at h
  · exact absurd h (by simp)
  · simp only [Except.ok.injEq, Prod.mk.injEq] at h
    obtain ⟨hA, hB⟩ := h
    subst hA
    rfl

theorem createRoomRoute_rooms (st : Storage) (body : InsertRoom) (hostId : Option Nat)
    (fc fj : Bool) :
    ∃ l, (createRoomRoute st body hostId fc fj).st.rooms = st.rooms ++ l := by
  unfold createRoomRoute
  split
  · exact ⟨[], by simp⟩
  · split
    · exact ⟨[], by simp⟩
    · split
      · exact ⟨[], by simp⟩
      · split
        · exact ⟨[], by simp⟩
        · next st1 room0 heq =>
          have hr1 := createRoom_ok_rooms st body _ st1 room0 heq
          split
          · exact ⟨[room0], hr1⟩
          · split
            · exact ⟨[room0], hr1⟩
            · next st2 rp heq2 =>
              have hr2 := joinRoom_ok_rooms st1 _ st2 rp heq2
              exact ⟨[room0], by rw [hr2, hr1]⟩

theorem joinRoomRoute_rooms (st : Storage) (rid : String) (userId : Option Nat) :
    (joinRoomRoute st rid userId).st.rooms = st.rooms := by
  unfold joinRoomRoute
  split
  · rfl
  · split
    · rfl
    · split
      · rfl
      · split
        · rfl
        · split
          · rfl
          · next st1 rp heq => exact joinRoom_ok_rooms st _ st1 rp heq

theorem submissionsRoute_rooms (st : Storage) (body : InsertGameSubmission) :
    (submissionsRoute st body).st.rooms = st.rooms := by
  unfold submissionsRoute
  split
  · rfl
  · split
    · rfl
    · split
      · rfl
      · next st1 sub heq => exact createSubmission_ok_rooms st body st1 sub heq

theorem votesRoute_rooms (st : Storage) (body : InsertGameVote) :
    (votesRoute st body).st.rooms = st.rooms := by
  unfold votesRoute
  split
  · rfl
  · split
    · rfl
    · next st1 v heq => exact createVote_ok_rooms st body st1 v heq

theorem step_preserves_playing (st : Storage) (op : Op) (r : String) (room : Room)
    (h1 : getRoom st r = some room) (h2 : room.status = "playing") :
    ∃ room', getRoom (step st op) r = some room' ∧ room'.status = "playing" := by
  cases op with
  | createRoomOp body hostId fc fj =>
    obtain ⟨l, hl⟩ := createRoomRoute_rooms st body hostId fc fj
    refine ⟨room, ?_, h2⟩
    unfold getRoom at h1
    simp only [step, getRoom]
    rw [hl]
    exact find?_append_some _ _ _ _ h1
  | joinRoomOp rid uid =>
    refine ⟨room, ?_, h2⟩
    unfold getRoom at h1
    simp only [step, getRoom]
    rw [joinRoomRoute_rooms st rid uid]
    exact h1
  | startGameOp rid hostId =>
    simp only [step]
    unfold startGameRoute
    split
    · exact ⟨room, h1, h2⟩
    · split
      · exact ⟨room, h1, h2⟩
      · dsimp only
        split
        · exact ⟨room, h1, h2⟩
        · split
          · exact ⟨room, h1, h2⟩
          · next first heq =>
            refine ⟨if room.id == rid then
                      { room with status := "playing",
                                  currentPlayerId := some first.1.userId }
                    else room, ?_, ?_⟩
            · unfold getRoom at h1
              simp only [getRoom, updateRoom]
              exact find?_map_update st.rooms rid r
                (fun r0 => { r0 with status := "playing",
                                     currentPlayerId := some first.1.userId })
                (fun x => rfl) room h1
            · split
              · rfl
              · exact h2
  | submitPhraseOp body =>
    refine ⟨room, ?_, h2⟩
    unfold getRoom at h1
    simp only [step, getRoom]
    rw [submissionsRoute_rooms st body]
    exact h1
  | castVoteOp body =>
    refine ⟨room, ?_, h2⟩
    unfold getRoom at h1
    simp only [step, getRoom]
    rw [votesRoute_rooms st body]
    exact h1

theorem run_preserves_playing (st : Storage) (ops : List Op) (r : String) (room : Room)
    (h1 : getRoom st r = some room) (h2 : room.status = "playing") :
    ∃ room', getRoom (run st ops) r = some room' ∧ room'.status = "playing" := by
  induction ops generalizing st room with
  | nil => exact ⟨room, h1, h2⟩
  | cons op rest ih =>
    obtain ⟨room1, g1, g2⟩ := step_preserves_playing st op r room h1 h2
    exact ih (step st op) room1 g1 g2

/-- Claim C2 counterexample: on a room that is already playing (with user 2
holding the turn), a repeated StartGame by the host succeeds with a 200
response instead of failing with a Forbidden or Conflict error, re-runs the
start transition, re-assigns the current-turn player to the first joiner and
re-broadcasts the game-started event. -/
theorem startGame_repeat_counterexample :
    playingDemoStorage.rooms = [⟨"ABC123", 1, "playing", some 2, 1, 5⟩] ∧
    (startGameRoute playingDemoStorage "ABC123" 1).resp =
      .ok (some ⟨"ABC123", 1, "playing", some 1, 1, 5⟩) ∧
    getRoom (startGameRoute playingDemoStorage "ABC123" 1).st "ABC123" =
      some ⟨"ABC123", 1, "playing", some 1, 1, 5⟩ ∧
    (startGameRoute playingDemoStorage "ABC123" 1).events =
      [("ABC123", WsEvent.gameStarted 1)] :=
  ⟨rfl, rfl, rfl, rfl⟩

/-- Claim C2 (amended): the status field indeed never transitions backward:
after any sequence of coordinator operations, a room whose status is playing
still has status playing (every write to the status column sets it to
playing).  However, StartGame performs no status check, so a repeated
StartGame on a playing room does not fail: it succeeds again and re-assigns
the current-turn player (see the counterexample). -/
theorem status_never_leaves_playing (st : Storage) (ops : List Op) (r : String)
    (room room' : Room) (h1 : getRoom st r = some room)
    (h2 : room.status = "playing") (h3 : getRoom (run st ops) r = some room') :
    room'.status = "playing" := by
  obtain ⟨room1, g1, g2⟩ := run_preserves_playing st ops r room h1 h2
  rw [h3] at g1
  injection g1 with g1
  rw [g1]
  exact g2

/-- Witness for the amended C2 theorem: the playing room stays playing
across a repeated StartGame operation. -/
theorem status_never_leaves_playing_witness :
    (⟨"ABC123", 1, "playing", some 1, 1, 5⟩ : Room).status = "playing" :=
  status_never_leaves_playing playingDemoStorage [.startGameOp "ABC123" 1] "ABC123"
    ⟨"ABC123", 1, "playing", some 2, 1, 5⟩ ⟨"ABC123", 1, "playing", some 1, 1, 5⟩
    rfl rfl rfl

/-- Claim C4: for a host-issued StartGame on an existing room, fewer than two
joined players yields the insufficient-players error with nothing changed and
nothing broadcast; with at least two players it succeeds, sets the room to
status playing with the first player of the join-order player list as the
current-turn player, and broadcasts the game-started event carrying that
player id to the room. -/
theorem startGame_spec (st : Storage) (rid : String) (hostId : Nat) (room : Room)
    (hroom : getRoom st rid = some room) (hhost : room.hostId = hostId) :
    ((getRoomPlayers st rid).length < 2 →
       (startGameRoute st rid hostId).resp =
         .error ⟨400, "Need at least 2 players to start"⟩ ∧
       (startGameRoute st rid hostId).st = st ∧
       (startGameRoute st rid hostId).events = []) ∧
    (∀ first rest, getRoomPlayers st rid = first :: rest →
       2 ≤ (getRoomPlayers st rid).length →
       (startGameRoute st rid hostId).resp =
         .ok (some { room with status := "playing",
                               currentPlayerId := some first.1.userId }) ∧
       getRoom (startGameRoute st rid hostId).st rid =
         some { room with status := "playing",
                          currentPlayerId := some first.1.userId } ∧
       (startGameRoute st rid hostId).events =
         [(rid, WsEvent.gameStarted first.1.userId)]) := by
  have hfind0 : st.rooms.find? (fun r0 => r0.id == rid) = some room := hroom
  have hid : (room.id == rid) = true := by
    have h0 := List.find?_some hfind0
    simpa using h0
  subst hhost
  unfold startGameRoute
  simp only [hroom, bne_self_eq_false, Bool.false_eq_true, if_false]
  constructor
  · intro hlen
    rw [if_pos hlen]
    refine ⟨?A, ?B, ?C⟩
    case A => rfl
    case B => rfl
    case C => rfl
  · intro first rest hcons hlen2
    have hnl : ¬((getRoomPlayers st rid).length < 2) := by omega
    rw [if_neg hnl, hcons]
    simp only [List.head?_cons]
    unfold updateRoom getRoom
    have hfind := find?_map_update st.rooms rid rid
      (fun r0 => { r0 with status := "playing",
                           currentPlayerId := some first.1.userId })
      (fun x => rfl) room hroom
    rw [hid] at hfind
    simp only [if_true] at hfind
    refine ⟨?_, ?_, trivial⟩
    · simp only [hfind]
    · simp only [hfind]

/-- Witness for C4 at the two-player waiting room: StartGame by the host
succeeds, the room becomes playing with user 1 (the first joiner) as current
player, and the game-started event is broadcast. -/
theorem startGame_spec_witness :
    (startGameRoute waitingDemoStorage "ABC123" 1).resp =
      .ok (some ⟨"ABC123", 1, "playing", some 1, 1, 5⟩) ∧
    getRoom (startGameRoute waitingDemoStorage "ABC123" 1).st "ABC123" =
      some ⟨"ABC123", 1, "playing", some 1, 1, 5⟩ ∧
    (startGameRoute waitingDemoStorage "ABC123" 1).events =
      [("ABC123", WsEvent.gameStarted 1)] :=
  (startGame_spec waitingDemoStorage "ABC123" 1 ⟨"ABC123", 1, "waiting", none, 1, 5⟩
      rfl rfl).2
    (⟨1, "ABC123", 1, 0⟩, ⟨1, "alice", "Alice"⟩)
    [(⟨2, "ABC123", 2, 0⟩, ⟨2, "bob", "Bob"⟩)] rfl (by decide)

/-- Claim C5: on an existing room, SubmitPhrase from any player other than
the current-turn player fails with the not-your-turn error, changing nothing
and broadcasting nothing; on success the stored row is appended and the one
broadcast new-submission event carries exactly the id, phrase, round and
playerId fields of the stored submission — its payload object has exactly
those four keys and no actualType key. -/
theorem submitPhrase_turn_and_broadcast (st : Storage) (body : InsertGameSubmission)
    (room : Room) (hroom : getRoom st body.roomId = some room) :
    (room.currentPlayerId ≠ some body.playerId →
       (submissionsRoute st body).resp = .error ⟨400, "Not your turn"⟩ ∧
       (submissionsRoute st body).st = st ∧
       (submissionsRoute st body).events = []) ∧
    (∀ s, (submissionsRoute st body).resp = .ok s →
       (submissionsRoute st body).st.gameSubmissions = st.gameSubmissions ++ [s] ∧
       (submissionsRoute st body).events =
         [(body.roomId, WsEvent.newSubmission s.id s.phrase s.round s.playerId)] ∧
       eventToJson (WsEvent.newSubmission s.id s.phrase s.round s.playerId) =
         .obj [("type", .str "new_submission"),
               ("submission", .obj [("id", .num s.id), ("phrase", .str s.phrase),
                                    ("round", .num s.round), ("playerId", .num s.playerId)])] ∧
       jsonTopKeys (.obj [("id", .num s.id), ("phrase", .str s.phrase),
                          ("round", .num s.round), ("playerId", .num s.playerId)]) =
         ["id", "phrase", "round", "playerId"] ∧
       "actualType" ∉ (["id", "phrase", "round", "playerId"] : List String)) := by
  constructor
  · intro hne
    have hb : (room.currentPlayerId != some body.playerId) = true := bne_iff_ne.mpr hne
    unfold submissionsRoute
    simp only [hroom, hb, if_true]
    refine ⟨?_, ?_, ?_⟩ <;> trivial
  · intro s h
    unfold submissionsRoute at h ⊢
    simp only [hroom] at h ⊢
    cases hturn : (room.currentPlayerId != some body.playerId) with
    | true => simp [hturn] at h
    | false =>
      simp only [hturn, Bool.false_eq_true, if_false] at h ⊢
      cases hc : createSubmission st body with
      | error e => simp [hc] at h
      | ok p =>
        obtain ⟨st1, sub⟩ := p
        simp only [hc] at h ⊢
        simp only [Except.ok.injEq] at h
        subst h
        refine ⟨?_, rfl, rfl, rfl, by decide⟩
        unfold createSubmission at hc
        split at hc
        · exact absurd hc (by simp)
        · simp only [Except.ok.injEq, Prod.mk.injEq] at hc
          obtain ⟨h1, h2⟩ := hc
          subst h1
          subst h2
          rfl

/-- Witness for C5: in the playing room whose current-turn player is user 1,
a submission by user 2 fails with the not-your-turn error and no broadcast. -/
theorem submitPhrase_turn_and_broadcast_witness :
    (submissionsRoute turnDemoStorage ⟨"ABC123", 2, 1, "not my turn", "truth"⟩).resp =
      .error ⟨400, "Not your turn"⟩ ∧
    (submissionsRoute turnDemoStorage ⟨"ABC123", 2, 1, "not my turn", "truth"⟩).st =
      turnDemoStorage ∧
    (submissionsRoute turnDemoStorage ⟨"ABC123", 2, 1, "not my turn", "truth"⟩).events = [] :=
  (submitPhrase_turn_and_broadcast turnDemoStorage ⟨"ABC123", 2, 1, "not my turn", "truth"⟩
    ⟨"ABC123", 1, "playing", some 1, 1, 5⟩ rfl).1 (by decide)

/-- Claim C9 counterexample: starting from a storage with one registered
user and no rooms, a CreateRoom whose room insert succeeds but whose
auto-join insert fails (its awaited storage call rejects) reports the
invalid-room-data error to the caller, yet the room row persists with no
matching room-player row: the two rows are not created together or not at
all. -/
theorem createRoom_partial_state_counterexample :
    usersOnlyStorage.rooms = [] ∧
    (createRoomRoute usersOnlyStorage ⟨"ABC123", 5⟩ (some 1) false true).resp =
      .error ⟨400, "Invalid room data"⟩ ∧
    (createRoomRoute usersOnlyStorage ⟨"ABC123", 5⟩ (some 1) false true).st.rooms =
      [⟨"ABC123", 1, "waiting", none, 1, 5⟩] ∧
    (createRoomRoute usersOnlyStorage ⟨"ABC123", 5⟩ (some 1) false true).st.roomPlayers =
      [] :=
  ⟨rfl, rfl, rfl, rfl⟩

/-- Claim C9 (amended): CreateRoom is atomic only as long as no storage call
fails after the room insert: whenever the auto-join insert does not fault,
any error response leaves the storage exactly as it was (in the model the
auto-join of a freshly inserted room by a validated host can only fail
through such a fault, so every remaining error precedes the room insert).
When the auto-join insert faults after a successful room insert, the room
row persists despite the reported error (see the counterexample). -/
theorem createRoom_atomic_without_midway_fault (st : Storage) (body : InsertRoom)
    (hostId : Option Nat) (fc : Bool) (e : ErrResp)
    (h : (createRoomRoute st body hostId fc false).resp = .error e) :
    (createRoomRoute st body hostId fc false).st = st := by
  unfold createRoomRoute at h ⊢
  cases hostId with
  | none => rfl
  | some h0 =>
    cases hz : (h0 == 0) with
    | true => simp [hz]
    | false =>
      cases fc with
      | true => simp [hz]
      | false =>
        simp only [hz, Bool.false_eq_true, if_false] at h ⊢
        cases hc : createRoom st body h0 with
        | error e2 => simp [hc]
        | ok p =>
          obtain ⟨st1, room0⟩ := p
          simp only [hc] at h ⊢
          unfold createRoom at hc
          split at hc
          · exact absurd hc (by simp)
          · next hcond =>
            simp only [Except.ok.injEq, Prod.mk.injEq] at hc
            obtain ⟨h1, h2⟩ := hc
            subst h1
            subst h2
            simp only [Bool.or_eq_true, not_or, Bool.not_eq_true, Bool.not_eq_false]
              at hcond
            obtain ⟨hdup, huser⟩ := hcond
            cases hj : joinRoom
                { st with rooms :=
                    st.rooms ++ [⟨body.id, h0, "waiting", none, 1, body.maxRounds⟩] }
                ⟨body.id, h0⟩ with
            | error e3 =>
              exfalso
              unfold joinRoom at hj
              split at hj
              · next hcond2 =>
                have hany : ((st.rooms ++
                    [(⟨body.id, h0, "waiting", none, 1, body.maxRounds⟩ : Room)]).any
                      (fun r => r.id == body.id)) = true := by
                  simp [List.any_append]
                have huser1 : userExists st h0 = true := by simpa using huser
                have huser2 : userExists
                    { st with rooms := st.rooms ++
                        [⟨body.id, h0, "waiting", none, 1, body.maxRounds⟩] } h0 =
                      true := huser1
                simp [hany, huser2] at hcond2
              · exact absurd hj (by simp)
            | ok q =>
              obtain ⟨st2, rp⟩ := q
              simp [hj] at h

/-- Witness for the amended C9 theorem: with no mid-operation fault, a
CreateRoom that fails (duplicate room id) leaves the storage unchanged. -/
theorem createRoom_atomic_without_midway_fault_witness :
    (createRoomRoute waitingDemoStorage ⟨"ABC123", 5⟩ (some 1) false false).st =
      waitingDemoStorage :=
  createRoom_atomic_without_midway_fault waitingDemoStorage ⟨"ABC123", 5⟩ (some 1) false
    ⟨400, "Invalid room data"⟩ rfl

/-- Claim C7: a broadcast to a room serializes the event once and performs
exactly the sends to the open members of that room's broadcast set at call
time: the send list is the filtered-then-mapped room set, every delivered
pair is an open member of the room set carrying the one serialized payload,
and every open member of the set receives it; a connection not in the set
(one bound to a different room) receives nothing, and closed members are
skipped with no error. -/
theorem broadcast_delivery_spec (cs : ConnState) (isOpen : Nat → Bool) (rid : String)
    (msg : WsEvent) :
    broadcastToRoom cs isOpen rid msg =
      ((roomSet cs rid).filter isOpen).map (fun ws => (ws, eventToJson msg)) ∧
    (∀ ws j, (ws, j) ∈ broadcastToRoom cs isOpen rid msg →
       ws ∈ roomSet cs rid ∧ isOpen ws = true ∧ j = eventToJson msg) ∧
    (∀ ws, ws ∈ roomSet cs rid → isOpen ws = true →
       (ws, eventToJson msg) ∈ broadcastToRoom cs isOpen rid msg) := by
  have hmain : broadcastToRoom cs isOpen rid msg =
      ((roomSet cs rid).filter isOpen).map (fun ws => (ws, eventToJson msg)) := by
    unfold broadcastToRoom roomSet
    cases mapGet cs.roomConnections rid with
    | none => rfl
    | some conns => rfl
  refine ⟨hmain, ?_, ?_⟩
  · intro ws j hmem
    rw [hmain] at hmem
    simp only [List.mem_map] at hmem
    obtain ⟨ws0, hws0, heq⟩ := hmem
    obtain ⟨hmem0, hopen⟩ := List.mem_filter.mp hws0
    obtain ⟨hA, hB⟩ := Prod.mk.injEq .. ▸ heq
    subst hA
    exact ⟨hmem0, hopen, hB.symm⟩
  · intro ws hmem hopen
    rw [hmain]
    exact List.mem_map.mpr ⟨ws, List.mem_filter.mpr ⟨hmem, hopen⟩, rfl⟩

/-- A registry with two connections in room R, one in room S, and a
transport oracle under which only connection 1 is open. -/
def demoConnState : ConnState :=
  ⟨[("R", [1, 2]), ("S", [3])], [(5, 1), (6, 2), (7, 3)]⟩

/-- Transport oracle under which only connection 1 is open. -/
def onlyOneOpen : Nat → Bool := fun ws => ws == 1

/-- Witness for C7: the open member 1 of room R receives the serialized
event. -/
theorem broadcast_delivery_spec_witness :
    (1, eventToJson (WsEvent.gameStarted 9)) ∈
      broadcastToRoom demoConnState onlyOneOpen "R" (WsEvent.gameStarted 9) :=
  (broadcast_delivery_spec demoConnState onlyOneOpen "R" (WsEvent.gameStarted 9)).2.2 1
    (by decide) rfl

/-- Claim C8 counterexample: connection 1 joins room R for user 5, then
connection 2 joins room R for the same user.  The user-connections map now
holds only the new connection, but the old connection 1 is still in room R
broadcast set and still receives the next broadcast: the prior binding is
not destroyed from the room fan-out by the replacement. -/
theorem stale_connection_counterexample :
    ((handleJoinRoomMsg (handleJoinRoomMsg csEmpty 1 "R" 5 allOpen).1
        2 "R" 5 allOpen).1).userConnections = [(5, 2)] ∧
    roomSet (handleJoinRoomMsg (handleJoinRoomMsg csEmpty 1 "R" 5 allOpen).1
        2 "R" 5 allOpen).1 "R" = [1, 2] ∧
    broadcastToRoom (handleJoinRoomMsg (handleJoinRoomMsg csEmpty 1 "R" 5 allOpen).1
        2 "R" 5 allOpen).1 allOpen "R" (WsEvent.userJoined 5) =
      [(1, eventToJson (WsEvent.userJoined 5)), (2, eventToJson (WsEvent.userJoined 5))] :=
  ⟨rfl, rfl, rfl⟩

/-- Claim C8 (amended): a join-room message makes the new connection the
sole entry for the user in the user-connections map (replacing any prior
one, without closing it), but the replaced connection is not removed from
any room broadcast set: every connection in any room set before the join is
still in that room set afterwards, so the old connection keeps receiving
that room's broadcasts until its own close. -/
theorem join_replaces_binding_but_keeps_room_membership (cs : ConnState)
    (ws0 ws1 : Nat) (rid r : String) (userId : Nat) (isOpen : Nat → Bool) :
    mapGet ((handleJoinRoomMsg cs ws1 rid userId isOpen).1).userConnections userId =
      some ws1 ∧
    (ws0 ∈ roomSet cs r →
      ws0 ∈ roomSet (handleJoinRoomMsg cs ws1 rid userId isOpen).1 r) := by
  constructor
  · simp only [handleJoinRoomMsg]
    exact mapGet_mapSet_self _ _ _
  · intro hmem
    simp only [handleJoinRoomMsg, roomSet] at hmem ⊢
    cases hr : (rid == r) with
    | true =>
      have hr2 : rid = r := eq_of_beq hr
      subst hr2
      rw [mapGet_mapSet_self]
      simp only [Option.getD_some]
      exact mem_setAdd_of_mem _ _ _ hmem
    | false =>
      rw [mapGet_mapSet_ne _ _ _ _ hr]
      exact hmem

/-- Witness for the amended C8 theorem at the concrete replacement
scenario: after connection 2 rebinds user 5, the user map points at 2 and
the old connection 1 is still a member of room R broadcast set. -/
theorem join_replaces_binding_witness :
    mapGet ((handleJoinRoomMsg (handleJoinRoomMsg csEmpty 1 "R" 5 allOpen).1
        2 "R" 5 allOpen).1).userConnections 5 = some 2 ∧
    1 ∈ roomSet (handleJoinRoomMsg (handleJoinRoomMsg csEmpty 1 "R" 5 allOpen).1
        2 "R" 5 allOpen).1 "R" :=
  ⟨(join_replaces_binding_but_keeps_room_membership
      (handleJoinRoomMsg csEmpty 1 "R" 5 allOpen).1 1 2 "R" "R" 5 allOpen).1,
   (join_replaces_binding_but_keeps_room_membership
      (handleJoinRoomMsg csEmpty 1 "R" 5 allOpen).1 1 2 "R" "R" 5 allOpen).2
     (by decide)⟩

/-- Claim C10: the join-room handler adds the joining connection to the room
broadcast set before broadcasting the user-joined event through the updated
registry, so the joining connection itself, when its transport is open,
receives the user-joined event announcing its own join. -/
theorem join_room_self_delivery (cs : ConnState) (ws : Nat) (rid : String)
    (userId : Nat) (isOpen : Nat → Bool) (h : isOpen ws = true) :
    (ws, eventToJson (WsEvent.userJoined userId)) ∈
      (handleJoinRoomMsg cs ws rid userId isOpen).2 := by
  simp only [handleJoinRoomMsg, broadcastToRoom]
  rw [mapGet_mapSet_self]
  exact List.mem_map.mpr ⟨ws,
    List.mem_filter.mpr ⟨mem_setAdd_self _ _, h⟩, rfl⟩

/-- Witness for C10: a fresh open connection joining room R for user 5
receives the user-joined event it triggered. -/
theorem join_room_self_delivery_witness :
    (1, eventToJson (WsEvent.userJoined 5)) ∈ (handleJoinRoomMsg csEmpty 1 "R" 5 allOpen).2 :=
  join_room_self_delivery csEmpty 1 "R" 5 allOpen rfl
